import Mathlib

/-!
Shallow embedding of the AltScore alternative credit-scoring demo.
The repository ships the React/TypeScript frontend (the ScoreRequest and
ScoreResponse shapes, the scoring page, the dashboard page); the backend
scoring engine itself is described by the specification but its code is
not in the repository, so the engine components below are modelled from
the specification and say so in their doc comments.  Everything derived
from files of the repository names the file it comes from.
-/

namespace AltScore

/-- Categorical social-media activity level, from the sm_activity_level
field of the ScoreRequest interface in the api module. -/
inductive ActivityLevel
  | low
  | medium
  | high
deriving DecidableEq, Repr

/-- Numeric encoding of the ordinal activity level used when the feature
vector is assembled.  Modelled from the spec: the backend feature
assembly is missing from the repository; the ordinal tiers low, medium,
high are encoded as 0, 1, 2. -/
def ActivityLevel.encode : ActivityLevel → ℚ
  | .low => 0
  | .medium => 1
  | .high => 2

/-- Feature fields of a scoring request, in the declaration order of the
ScoreRequest TypeScript interface of the api module (all 18 behavioural
features; the consent flag is added by ScoreRequest).  Numbers are
modelled as rationals. -/
structure FormValues where
  ecom_txn_count : ℚ
  ecom_spend : ℚ
  ecom_refund_rate : ℚ
  ecom_category_diversity : ℚ
  utility_on_time_ratio : ℚ
  utility_avg_days_late : ℚ
  utility_bill_volatility : ℚ
  wallet_txn_count : ℚ
  wallet_txn_share : ℚ
  wallet_balance_volatility : ℚ
  income_monthly : ℚ
  inflow_volatility : ℚ
  outflow_volatility : ℚ
  net_cash_margin : ℚ
  sm_post_freq : ℚ
  sm_engagement_score : ℚ
  sm_account_age_years : ℚ
  sm_activity_level : ActivityLevel
deriving DecidableEq, Repr

/-- Scoring request: the 18 feature fields plus the boolean consent flag,
as declared by the ScoreRequest interface of the api module. -/
structure ScoreRequest extends FormValues where
  consent : Bool
deriving DecidableEq, Repr

/-- Canonical ordered feature keys of the FeatureRegistry, matching the
field declaration order of the ScoreRequest interface. -/
def featureKeys : List String :=
  ["ecom_txn_count", "ecom_spend", "ecom_refund_rate",
   "ecom_category_diversity", "utility_on_time_ratio",
   "utility_avg_days_late", "utility_bill_volatility", "wallet_txn_count",
   "wallet_txn_share", "wallet_balance_volatility", "income_monthly",
   "inflow_volatility", "outflow_volatility", "net_cash_margin",
   "sm_post_freq", "sm_engagement_score", "sm_account_age_years",
   "sm_activity_level"]

/-- Value of one named feature of a request.  Modelled from the spec: the
backend validates and reads every request field against the registry
schema; unknown keys read as 0. -/
def featureValue (r : ScoreRequest) (k : String) : ℚ :=
  if k = "ecom_txn_count" then r.ecom_txn_count
  else if k = "ecom_spend" then r.ecom_spend
  else if k = "ecom_refund_rate" then r.ecom_refund_rate
  else if k = "ecom_category_diversity" then r.ecom_category_diversity
  else if k = "utility_on_time_ratio" then r.utility_on_time_ratio
  else if k = "utility_avg_days_late" then r.utility_avg_days_late
  else if k = "utility_bill_volatility" then r.utility_bill_volatility
  else if k = "wallet_txn_count" then r.wallet_txn_count
  else if k = "wallet_txn_share" then r.wallet_txn_share
  else if k = "wallet_balance_volatility" then r.wallet_balance_volatility
  else if k = "income_monthly" then r.income_monthly
  else if k = "inflow_volatility" then r.inflow_volatility
  else if k = "outflow_volatility" then r.outflow_volatility
  else if k = "net_cash_margin" then r.net_cash_margin
  else if k = "sm_post_freq" then r.sm_post_freq
  else if k = "sm_engagement_score" then r.sm_engagement_score
  else if k = "sm_account_age_years" then r.sm_account_age_years
  else if k = "sm_activity_level" then r.sm_activity_level.encode
  else 0

/-- Feature vector of a request, assembled in FeatureRegistry order.
Modelled from the spec: on success the scoring service assembles the
vector in registry order before invoking the model. -/
def featureVector (r : ScoreRequest) : List ℚ :=
  featureKeys.map (featureValue r)

/-- Impact direction derived from a signed attribution value.  Modelled
from the spec: positive attribution labels the feature as increasing
risk, negative or zero attribution as reducing risk. -/
def impactLabel (v : ℚ) : String :=
  if 0 < v then "increases risk" else "reduces risk"

/-- Per-instance explanation entry, from the ShapExplanation interface of
the api module (the value shown to the user is modelled numerically). -/
structure ShapExplanation where
  feature_key : String
  feature_label : String
  value : ℚ
  shap_value : ℚ
  impact : String
deriving DecidableEq, Repr

/-- Fixed monotone transform from probability of default onto the bounded
score range.  Modelled from the spec: a fixed monotonically decreasing
map from the unit interval onto the interval from 300 to 900. -/
def scoreFromPd (p : ℚ) : ℚ :=
  900 - 600 * p

/-- Risk band from fixed probability-of-default thresholds.  Modelled
from the spec: ordered, non-overlapping thresholds covering the whole
unit interval; the band names are the ones the scoring page displays. -/
def riskBand (p : ℚ) : String :=
  if p < 1 / 20 then "Very Low"
  else if p < 3 / 20 then "Low"
  else if p < 3 / 10 then "Medium"
  else "High"

/-- Published model artifact.  Modelled from the spec: an opaque scoring
function returning a probability of default, a per-instance additive
attribution function aligned positionally with the registry, and a
version identifier; the probability range and the alignment are carried
as invariants of the artifact. -/
structure TrainedModel where
  version : String
  pd : List ℚ → ℚ
  attr : List ℚ → List ℚ
  pd_nonneg : ∀ v, 0 ≤ pd v
  pd_le_one : ∀ v, pd v ≤ 1
  attr_length : ∀ v, (attr v).length = featureKeys.length

/-- Domain validation of the feature fields.  Modelled from the spec:
ratio-valued features must lie in the unit interval and count-valued or
magnitude-valued features must be nonnegative. -/
def domainValid (r : ScoreRequest) : Bool :=
  decide (0 ≤ r.ecom_txn_count) && decide (0 ≤ r.ecom_spend) &&
  decide (0 ≤ r.ecom_refund_rate) && decide (r.ecom_refund_rate ≤ 1) &&
  decide (0 ≤ r.ecom_category_diversity) &&
  decide (0 ≤ r.utility_on_time_ratio) &&
  decide (r.utility_on_time_ratio ≤ 1) &&
  decide (0 ≤ r.utility_avg_days_late) &&
  decide (0 ≤ r.utility_bill_volatility) &&
  decide (0 ≤ r.wallet_txn_count) &&
  decide (0 ≤ r.wallet_txn_share) && decide (r.wallet_txn_share ≤ 1) &&
  decide (0 ≤ r.wallet_balance_volatility) &&
  decide (0 ≤ r.income_monthly) && decide (0 ≤ r.inflow_volatility) &&
  decide (0 ≤ r.outflow_volatility) && decide (0 ≤ r.sm_post_freq) &&
  decide (0 ≤ r.sm_engagement_score) &&
  decide (0 ≤ r.sm_account_age_years)

/-- Ranking order on indexed attributions: descending absolute value,
ties broken by the smaller registry index.  Modelled from the spec. -/
def attrLe (a b : ℕ × ℚ) : Bool :=
  decide (|b.2| < |a.2|) || (decide (|a.2| = |b.2|) && decide (a.1 ≤ b.1))

/-- Attributions of one instance paired with their registry indices and
ranked by attrLe.  Modelled from the spec. -/
def rankedAttributions (shap : List ℚ) : List (ℕ × ℚ) :=
  shap.enum.mergeSort attrLe

/-- Top-5 ranked indexed attributions of one instance.  Modelled from the
spec: k = 5 explanations are selected per instance. -/
def topAttributions (shap : List ℚ) : List (ℕ × ℚ) :=
  (rankedAttributions shap).take 5

/-- Explanation entry built from one ranked indexed attribution.
Modelled from the spec; the registry display label is the key itself in
this model. -/
def mkExplanation (r : ScoreRequest) (iv : ℕ × ℚ) : ShapExplanation :=
  { feature_key := featureKeys.getD iv.1 ""
    feature_label := featureKeys.getD iv.1 ""
    value := (featureVector r).getD iv.1 0
    shap_value := iv.2
    impact := impactLabel iv.2 }

/-- Top-5 explanations of one request against a model.  Modelled from the
spec. -/
def topExplanations (m : TrainedModel) (r : ScoreRequest) :
    List ShapExplanation :=
  (topAttributions (m.attr (featureVector r))).map (mkExplanation r)

/-- Scoring response shape, from the ScoreResponse interface of the api
module. -/
structure ScoreResult where
  credit_score : ℚ
  risk_band : String
  probability_good : ℚ
  probability_default : ℚ
  top_explanations : List ShapExplanation
  model_version : String
deriving DecidableEq, Repr

/-- Failure kinds of the scoring service.  Modelled from the spec:
validation errors and a distinct service-not-ready error. -/
inductive ScoreError
  | validation (msg : String)
  | notReady
deriving DecidableEq, Repr

/-- Successful scoring result of one request against a published model.
Modelled from the spec: the model is invoked on the feature vector
assembled in registry order, probability of good is one minus the
probability of default, the score is the fixed monotone transform, the
band comes from the fixed thresholds, and the top-5 explanations of the
instance are attached together with the model version. -/
def mkResult (m : TrainedModel) (r : ScoreRequest) : ScoreResult :=
  let p := m.pd (featureVector r)
  { credit_score := scoreFromPd p
    risk_band := riskBand p
    probability_good := 1 - p
    probability_default := p
    top_explanations := topExplanations m r
    model_version := m.version }

/-- Scoring-service run, also counting model inferences performed.
Modelled from the spec: consent is a hard precondition checked before
anything else, then feature domains are validated; only on success is
the published model invoked, on the feature vector assembled in registry
order.  The second component counts invocations of the model scoring
function, so that the error paths are visibly inference-free. -/
def scoreRun (published : Option TrainedModel) (r : ScoreRequest) :
    Except ScoreError ScoreResult × ℕ :=
  if r.consent = false then (.error (.validation "consent required"), 0)
  else if domainValid r = false then
    (.error (.validation "feature value out of domain"), 0)
  else
    match published with
    | none => (.error .notReady, 0)
    | some m => (.ok (mkResult m r), 1)

/-- Scoring service entry point.  Modelled from the spec. -/
def score (published : Option TrainedModel) (r : ScoreRequest) :
    Except ScoreError ScoreResult :=
  (scoreRun published r).1

/-- Number of model inferences a request causes.  Modelled from the
spec. -/
def inferenceCount (published : Option TrainedModel) (r : ScoreRequest) :
    ℕ :=
  (scoreRun published r).2

/-- Group-level fairness metrics, from the FairnessGroupMetrics interface
of the DashboardPage component. -/
structure FairnessGroupMetrics where
  group : String
  n : ℕ
  avg_score : ℚ
  approval_rate : ℚ
  disparate_impact_ratio : Option ℚ
deriving DecidableEq, Repr

/-- One scored member of the validation population as the fairness
auditor sees it: monthly income, composite digital-activity level, and
the credit score the current model assigns.  Modelled from the spec. -/
structure ScoredMember where
  income : ℚ
  digital : ℚ
  credit_score : ℚ
deriving DecidableEq, Repr

/-- Approval decision on a credit score: at or above the cutoff of the
approved risk bands.  Modelled from the spec: the same cutoff the
scoring service uses to assign risk bands; with the fixed thresholds of
riskBand and the fixed transform this is the score boundary of the Low
band. -/
def approvedScore (s : ℚ) : Bool :=
  decide (810 < s)

/-- Approval rate of a group (an empty group has rate 0).  Modelled from
the spec. -/
def approvalRate (g : List ScoredMember) : ℚ :=
  if g.length = 0 then 0
  else (g.countP (fun m => approvedScore m.credit_score) : ℚ) / g.length

/-- Average credit score of a group (0 on an empty group).  Modelled
from the spec. -/
def avgScore (g : List ScoredMember) : ℚ :=
  if g.length = 0 then 0
  else (g.map (fun m => m.credit_score)).sum / g.length

/-- Fairness metrics of one group against a reference approval rate.
Modelled from the spec: the disparate-impact ratio is null exactly when
the reference approval rate is zero, never coerced to a number. -/
def mkGroupMetrics (label : String) (g : List ScoredMember)
    (refRate : ℚ) : FairnessGroupMetrics :=
  { group := label
    n := g.length
    avg_score := avgScore g
    approval_rate := approvalRate g
    disparate_impact_ratio :=
      if refRate = 0 then none else some (approvalRate g / refRate) }

/-- Validation population sorted by the income feature.  Modelled from
the spec. -/
def sortByIncome (pop : List ScoredMember) : List ScoredMember :=
  pop.mergeSort (fun a b => decide (a.income ≤ b.income))

/-- Equal-count income quartile bins, Q1 lowest to Q4 highest (Q4 takes
the rounding remainder).  Modelled from the spec. -/
def incomeQuartileBins (pop : List ScoredMember) : List (List ScoredMember) :=
  let s := sortByIncome pop
  let k := pop.length / 4
  [s.take k, (s.drop k).take k, (s.drop (2 * k)).take k, s.drop (3 * k)]

/-- Reference bin of the income table: the highest quartile Q4.
Modelled from the spec. -/
def incomeReferenceBin (pop : List ScoredMember) : List ScoredMember :=
  (incomeQuartileBins pop).getD 3 []

/-- Digital-adoption tier of a member from fixed thresholds on the
composite digital-activity level: 0 low, 1 medium, 2 high.  Modelled
from the spec. -/
def digitalTier (m : ScoredMember) : ℕ :=
  if m.digital < 1 then 0 else if m.digital < 2 then 1 else 2

/-- Members of one digital-adoption tier.  Modelled from the spec. -/
def digitalBin (pop : List ScoredMember) (t : ℕ) : List ScoredMember :=
  pop.filter (fun m => digitalTier m == t)

/-- Reference bin of the digital-adoption table: the highest tier.
Modelled from the spec. -/
def digitalReferenceBin (pop : List ScoredMember) : List ScoredMember :=
  digitalBin pop 2

/-- Fairness tables served to the dashboard, from the FairnessResponse
interface of the DashboardPage component. -/
structure FairnessReport where
  income_quartiles : List FairnessGroupMetrics
  digital_adoption_groups : List FairnessGroupMetrics
deriving DecidableEq, Repr

/-- Fairness audit over the scored validation population.  Modelled from
the spec: per-group metrics with Q4 as the reference of the income table
and the high tier as the reference of the digital-adoption table. -/
def audit (pop : List ScoredMember) : FairnessReport :=
  let refIncome := approvalRate (incomeReferenceBin pop)
  let refDigital := approvalRate (digitalReferenceBin pop)
  { income_quartiles :=
      (List.zip ["Q1", "Q2", "Q3", "Q4"] (incomeQuartileBins pop)).map
        (fun p => mkGroupMetrics p.1 p.2 refIncome)
    digital_adoption_groups :=
      (List.zip ["Low", "Medium", "High"]
        [digitalBin pop 0, digitalBin pop 1, digitalBin pop 2]).map
        (fun p => mkGroupMetrics p.1 p.2 refDigital) }

/-- Truthiness of a nullable number under JavaScript boolean coercion:
null is falsy and the number 0 is falsy.  This is the test the dashboard
page applies to disparate_impact_ratio in its fairness card. -/
def jsTruthyNum (r : Option ℚ) : Bool :=
  match r with
  | none => false
  | some x => decide (x ≠ 0)

/-- Decimal rendering with two digits after the point, modelling the
toFixed call of the dashboard page on a finite number. -/
def toFixed2 (x : ℚ) : String :=
  let n : ℤ := round (x * 100)
  let a : ℕ := n.natAbs
  let sign := if n < 0 then "-" else ""
  let frac := a % 100
  let fracStr := if frac < 10 then "0" ++ toString frac else toString frac
  sign ++ toString (a / 100) ++ "." ++ fracStr

/-- DIR text the dashboard page renders inside a fairness group label:
the ratio with two decimals when the ratio is truthy, an en dash
otherwise, from the conditional expression in the fairness card of the
DashboardPage component. -/
def dirText (r : Option ℚ) : String :=
  match r with
  | none => "–"
  | some x => if decide (x ≠ 0) then toFixed2 x else "–"

/-- Full bar label of a fairness group on the dashboard page. -/
def dirLabel (g : FairnessGroupMetrics) : String :=
  g.group ++ " (DIR " ++ dirText g.disparate_impact_ratio ++ ")"

/-- Default form values of the scoring page, from the defaultValues
constant of the ScorePage component. -/
def defaultValues : FormValues :=
  { ecom_txn_count := 10
    ecom_spend := 20000
    ecom_refund_rate := 0.02
    ecom_category_diversity := 4
    utility_on_time_ratio := 0.9
    utility_avg_days_late := 1
    utility_bill_volatility := 50
    wallet_txn_count := 8
    wallet_txn_share := 0.4
    wallet_balance_volatility := 30
    income_monthly := 60000
    inflow_volatility := 5000
    outflow_volatility := 4000
    net_cash_margin := 0.15
    sm_post_freq := 5
    sm_engagement_score := 1
    sm_account_age_years := 3
    sm_activity_level := .medium }

/-- State of the scoring page component: the form fields, the consent
checkbox, the loading flag, the error banner, the displayed result, and
the trace of requests issued to the scoring API, from the useState hooks
and the handleSubmit function of the ScorePage component. -/
structure PageState where
  form : FormValues
  consent : Bool
  loading : Bool
  error : Option String
  result : Option ScoreResult
  issued : List ScoreRequest
deriving DecidableEq, Repr

/-- Initial state of the scoring page, from the useState initialisers of
the ScorePage component. -/
def initState : PageState :=
  { form := defaultValues
    consent := false
    loading := false
    error := none
    result := none
    issued := [] }

/-- Events the scoring page reacts to: editing the form, toggling the
consent checkbox, clicking the submit button, and the scoring call
returning. -/
inductive PageEvent
  | setField (f : FormValues)
  | setConsent (b : Bool)
  | submitClick
  | apiSuccess (res : ScoreResult)
  | apiFailure (msg : String)

/-- Transition function of the scoring page, from the event handlers of
the ScorePage component: the consent handler clears the displayed result
when the box is unchecked; a click reaches handleSubmit only while the
button is enabled, that is while consent is given and no request is
loading (the disabled attribute of the submit button), and handleSubmit
clears the error and the result, sets loading, and issues the request
built from the form and the consent flag; a response clears the loading
flag and stores the result or the error message. -/
def step (s : PageState) : PageEvent → PageState
  | .setField f => { s with form := f }
  | .setConsent b =>
      { s with consent := b, result := if b then s.result else none }
  | .submitClick =>
      if s.consent && !s.loading then
        { s with loading := true
                 error := none
                 result := none
                 issued := s.issued ++
                   [{ toFormValues := s.form, consent := s.consent }] }
      else s
  | .apiSuccess res => { s with loading := false, result := some res }
  | .apiFailure msg => { s with loading := false, error := some msg }

/-- Reachability of a scoring-page state from the initial state. -/
inductive Reachable : PageState → Prop
  | init : Reachable initState
  | next {s : PageState} (e : PageEvent) :
      Reachable s → Reachable (step s e)

/-- Linear congruential generator step on 32 bits.  Modelled from the
spec: every stochastic step takes an explicit seed; this models the
seeded pseudo-random stream. -/
def lcg (s : ℕ) : ℕ :=
  (1664525 * s + 1013904223) % 2 ^ 32

/-- Stream of pseudo-random words from a seed. -/
def lcgStream : ℕ → ℕ → List ℕ
  | 0, _ => []
  | n + 1, s =>
    let s2 := lcg s
    s2 :: lcgStream n s2

/-- Unit-interval draw from one raw generator word. -/
def unitDraw (w : ℕ) : ℚ :=
  (w % 1000 : ℚ) / 1000

/-- Labelled behavioural record produced by the synthetic generator:
a feature vector aligned with the registry and a binary default
outcome.  Modelled from the spec. -/
structure BehavioralRecord where
  features : List ℚ
  label : Bool
deriving DecidableEq, Repr

/-- One synthetic record from a seed.  Modelled from the spec: the
latent outcome label is drawn first (default is the minority class),
then each feature is drawn from a distribution whose location shifts
with the label, so the features carry signal about the label. -/
def genRecord (s : ℕ) : BehavioralRecord :=
  let ws := lcgStream (featureKeys.length + 1) s
  let label := decide (unitDraw (ws.getD 0 0) < 1 / 5)
  let shift : ℚ := if label then 1 / 4 else 0
  { features := (ws.drop 1).map (fun w => unitDraw w + shift)
    label := label }

/-- Synthetic dataset generation.  Modelled from the spec: deterministic
in the seed, rejecting a nonpositive requested size as a validation
error with no partial dataset. -/
def generate (n : ℕ) (seed : ℕ) : Except String (List BehavioralRecord) :=
  if n = 0 then .error "n must be positive"
  else .ok ((List.range n).map (fun i => genRecord (lcg (seed + i))))

/-- Midpoint interpolation of two feature vectors, the synthetic-example
construction of the oversampler.  Modelled from the spec. -/
def interpolate (a b : List ℚ) : List ℚ :=
  (a.zip b).map (fun p => (p.1 + p.2) / 2)

/-- Minority-class oversampling applied to the training subset only.
Modelled from the spec: synthetic minority examples are interpolated
between existing minority examples until the minority count reaches the
majority count. -/
def oversample (trainSet : List BehavioralRecord) : List BehavioralRecord :=
  let minority := trainSet.filter (fun r => r.label)
  let majority := trainSet.filter (fun r => !r.label)
  let need := majority.length - minority.length
  let pairs := minority.zip (minority.rotate 1)
  let synth := (List.range need).map (fun i =>
    let p := pairs.getD (i % max pairs.length 1)
      ({ features := [], label := true }, { features := [], label := true })
    { features := interpolate p.1.features p.2.features, label := true })
  trainSet ++ synth

/-- Mean of one feature column over a list of rows (0 when empty). -/
def featureMean (rows : List (List ℚ)) (j : ℕ) : ℚ :=
  if rows.length = 0 then 0
  else (rows.map (fun row => row.getD j 0)).sum / rows.length

/-- Deterministic classifier fit on the balanced training subset.
Modelled from the spec (the reference backend fits a gradient-boosted
ensemble; this model fits a deterministic class-mean contrast
classifier, preserving the pipeline structure and its determinism): the
weight of each feature is the difference of its class means. -/
def fitWeights (trainSet : List BehavioralRecord) : List ℚ :=
  let pos := (trainSet.filter (fun r => r.label)).map (fun r => r.features)
  let neg := (trainSet.filter (fun r => !r.label)).map (fun r => r.features)
  (List.range featureKeys.length).map
    (fun j => featureMean pos j - featureMean neg j)

/-- Clamp onto the unit interval. -/
def clamp01 (x : ℚ) : ℚ :=
  max 0 (min 1 x)

/-- Predicted probability of default of the fitted model on a feature
vector.  Modelled from the spec. -/
def predictPd (w : List ℚ) (x : List ℚ) : ℚ :=
  clamp01 (1 / 2 + ((w.zip x).map (fun p => p.1 * p.2)).sum)

/-- Empirical AUC of the fitted model on a labelled set: the fraction of
(default, good) pairs ranked correctly, ties counted half (0 when one of
the classes is empty).  Modelled from the spec. -/
def aucOf (w : List ℚ) (validation : List BehavioralRecord) : ℚ :=
  let pos := (validation.filter (fun r => r.label)).map
    (fun r => predictPd w r.features)
  let neg := (validation.filter (fun r => !r.label)).map
    (fun r => predictPd w r.features)
  let total := pos.length * neg.length
  if total = 0 then 0
  else
    let wins := (pos.map (fun p =>
      (neg.countP (fun q => decide (q < p)) : ℚ) +
      (neg.countP (fun q => decide (q = p)) : ℚ) / 2)).sum
    wins / total

/-- Per-feature mean absolute attribution over the validation
population, for the fitted model whose attribution of feature j on a row
is its weight times the centred feature value.  Modelled from the
spec. -/
def globalMeanAbs (w : List ℚ) (validation : List BehavioralRecord) :
    List ℚ :=
  let rows := validation.map (fun r => r.features)
  (List.range featureKeys.length).map (fun j =>
    if rows.length = 0 then 0
    else (rows.map (fun row =>
      |w.getD j 0 * (row.getD j 0 - featureMean rows j)|)).sum / rows.length)

/-- Relative importances: the per-feature mean absolute attributions
normalised by their total.  Modelled from the spec: normalised so the
relative importances sum to one across all registry features. -/
def relativeImportances (meanAbs : List ℚ) : List ℚ :=
  meanAbs.map (fun x => x / meanAbs.sum)

/-- Global attribution ordering: registry indices ranked by descending
mean absolute attribution, ties by registry order.  Modelled from the
spec. -/
def globalOrdering (w : List ℚ) (validation : List BehavioralRecord) :
    List ℕ :=
  (rankedAttributions (globalMeanAbs w validation)).map (fun p => p.1)

/-- Outcome of one training run that the determinism scenario compares:
the validation AUC and the global attribution ordering. -/
structure TrainingOutcome where
  auc : ℚ
  ordering : List ℕ
deriving DecidableEq, Repr

/-- One full training run from a seed: generate, split at the fixed
ratio, oversample the training subset only, fit, evaluate AUC on the
untouched validation subset, and compute the global attribution
ordering.  Modelled from the spec. -/
def trainingRun (n : ℕ) (seed : ℕ) : Except String TrainingOutcome :=
  match generate n seed with
  | .error e => .error e
  | .ok records =>
    let cut := records.length * 4 / 5
    let trainSet := records.take cut
    let validation := records.drop cut
    let w := fitWeights (oversample trainSet)
    .ok { auc := aucOf w validation, ordering := globalOrdering w validation }

/-- Two successive executions of the whole pipeline with the same size
and seed, the scenario of the determinism claim. -/
def runTwice (n : ℕ) (seed : ℕ) :
    Except String TrainingOutcome × Except String TrainingOutcome :=
  (trainingRun n seed, trainingRun n seed)

/-- Decidable equality of results, used to evaluate the service on
concrete inputs. -/
instance {ε α : Type} [DecidableEq ε] [DecidableEq α] :
    DecidableEq (Except ε α) := fun a b =>
  match a, b with
  | .ok x, .ok y =>
    if h : x = y then .isTrue (by rw [h]) else .isFalse (by simp [h])
  | .error x, .error y =>
    if h : x = y then .isTrue (by rw [h]) else .isFalse (by simp [h])
  | .ok _, .error _ => .isFalse (by simp)
  | .error _, .ok _ => .isFalse (by simp)

/-- Demonstration model artifact used to evaluate the service on
concrete inputs: probability of default is a clamped affine function of
the refund-rate feature, attributions are centred feature values. -/
def demoModel : TrainedModel :=
  { version := "gen-1"
    pd := fun v => clamp01 (v.getD 2 0 / 2 + 1 / 10)
    attr := fun v => (List.range featureKeys.length).map (fun j => v.getD j 0 - 1)
    pd_nonneg := fun _ => le_max_left 0 _
    pd_le_one := fun _ => max_le (by norm_num) (min_le_left 1 _)
    attr_length := fun _ => by simp }

/-- Demonstration request: the default form values of the scoring page
with consent granted. -/
def demoRequest : ScoreRequest :=
  { toFormValues := defaultValues, consent := true }

/-- Demonstration request with consent withheld. -/
def demoRequestNoConsent : ScoreRequest :=
  { toFormValues := defaultValues, consent := false }

/-- Demonstration scored validation population of four members for the
fairness audit: the top income quartile member scores below the approval
cutoff. -/
def demoPop : List ScoredMember :=
  [{ income := 100, digital := 0, credit_score := 850 },
   { income := 200, digital := 1, credit_score := 700 },
   { income := 300, digital := 2, credit_score := 820 },
   { income := 400, digital := 3, credit_score := 500 }]

/-- Fairness metrics of Q1 of the demonstration population. -/
def demoQ1Metrics : FairnessGroupMetrics :=
  { group := "Q1"
    n := 1
    avg_score := 850
    approval_rate := 1
    disparate_impact_ratio := none }

/-- Demonstration fairness group carrying a zero disparate-impact
ratio. -/
def demoGroupZero : FairnessGroupMetrics :=
  { group := "Q1"
    n := 1
    avg_score := 700
    approval_rate := 0
    disparate_impact_ratio := some 0 }

/-- Demonstration validation weights and records for the global
attribution: constant weights over two records with contrasting
features. -/
def demoWeights : List ℚ :=
  List.replicate 18 1

/-- Demonstration validation records for the global attribution. -/
def demoValidation : List BehavioralRecord :=
  [{ features := List.replicate 18 0, label := false },
   { features := List.replicate 18 1, label := true }]

/-- Outcome of the training pipeline on one record with seed 0: the
validation member stands alone so the AUC denominator is empty and
all attributions tie at zero, leaving the registry ordering. -/
def demoOutcome : TrainingOutcome :=
  { auc := 0, ordering := List.range 18 }

/-- Scoring-page state reached by granting consent and clicking
submit. -/
def demoReachedState : PageState :=
  step (step initState (.setConsent true)) .submitClick

/-- Request the scoring page issues from the demonstration state. -/
def demoIssuedRequest : ScoreRequest :=
  { toFormValues := defaultValues, consent := true }

end AltScore

namespace AltScore

/-- Characterisation of a successful scoring call: consent was given,
the domains were valid, and the result is the one built from the
published model. -/
theorem score_ok_iff (m : TrainedModel) (r : ScoreRequest)
    (res : ScoreResult) :
    score (some m) r = .ok res ↔
      r.consent = true ∧ domainValid r = true ∧ res = mkResult m r := by
  unfold score scoreRun
  rcases hc : r.consent with _ | _
  · simp [hc]
  · rcases hd : domainValid r with _ | _
    · simp [hd]
    · simp [hd, eq_comm]

/-- C1: whenever consent is false the scoring service fails with the
consent validation error, produces no ScoreResult, and performs no model
inference, whatever the other 18 feature fields hold. -/
theorem consent_false_blocks_scoring (published : Option TrainedModel)
    (r : ScoreRequest) (h : r.consent = false) :
    score published r = .error (.validation "consent required") ∧
    inferenceCount published r = 0 := by
  unfold score inferenceCount scoreRun
  simp [h]

/-- Witness for C1 at the default form values with consent withheld. -/
theorem consent_false_blocks_scoring_witness :
    score (some demoModel) demoRequestNoConsent =
      .error (.validation "consent required") ∧
    inferenceCount (some demoModel) demoRequestNoConsent = 0 :=
  consent_false_blocks_scoring (some demoModel) demoRequestNoConsent rfl

/-- C2: every successful scoring result has probability of good plus
probability of default exactly one and a credit score between 300 and
900. -/
theorem score_ok_result_invariants (m : TrainedModel) (r : ScoreRequest)
    (res : ScoreResult) (h : score (some m) r = .ok res) :
    res.probability_good + res.probability_default = 1 ∧
    300 ≤ res.credit_score ∧ res.credit_score ≤ 900 := by
  obtain ⟨_, _, hres⟩ := (score_ok_iff m r res).1 h
  subst hres
  have h0 := m.pd_nonneg (featureVector r)
  have h1 := m.pd_le_one (featureVector r)
  refine ⟨?_, ?_, ?_⟩
  · show 1 - m.pd (featureVector r) + m.pd (featureVector r) = 1
    ring
  · show (300 : ℚ) ≤ 900 - 600 * m.pd (featureVector r)
    linarith
  · show (900 : ℚ) - 600 * m.pd (featureVector r) ≤ 900
    linarith

/-- Witness for C2 at the demonstration model and request. -/
theorem score_ok_result_invariants_witness :
    (mkResult demoModel demoRequest).probability_good +
      (mkResult demoModel demoRequest).probability_default = 1 ∧
    300 ≤ (mkResult demoModel demoRequest).credit_score ∧
    (mkResult demoModel demoRequest).credit_score ≤ 900 :=
  score_ok_result_invariants demoModel demoRequest
    (mkResult demoModel demoRequest) (by with_unfolding_all rfl)

/-- C5: the impact field of an explanation entry is the increases-risk
label exactly on strictly positive attributions and the reduces-risk
label on negative or zero attributions. -/
theorem explanation_impact_label (r : ScoreRequest) (iv : ℕ × ℚ) :
    (0 < iv.2 → (mkExplanation r iv).impact = "increases risk") ∧
    (iv.2 ≤ 0 → (mkExplanation r iv).impact = "reduces risk") := by
  constructor <;> intro h
  · show impactLabel iv.2 = _
    rw [impactLabel, if_pos h]
  · show impactLabel iv.2 = _
    rw [impactLabel, if_neg (not_lt.2 h)]

/-- Witness for C5 at attribution values 1 and 0. -/
theorem explanation_impact_label_witness :
    (mkExplanation demoRequest (0, 1)).impact = "increases risk" ∧
    (mkExplanation demoRequest (1, 0)).impact = "reduces risk" :=
  ⟨(explanation_impact_label demoRequest (0, 1)).1 (by norm_num),
   (explanation_impact_label demoRequest (1, 0)).2 (by norm_num)⟩

/-- C7: a scoring request is the 18 registry feature fields plus the
consent flag, and on success the feature vector handed to the model is
assembled in FeatureRegistry order. -/
theorem request_shape_and_vector_order :
    featureKeys.length = 18 ∧
    (∀ r : ScoreRequest, featureVector r =
      [r.ecom_txn_count, r.ecom_spend, r.ecom_refund_rate,
       r.ecom_category_diversity, r.utility_on_time_ratio,
       r.utility_avg_days_late, r.utility_bill_volatility,
       r.wallet_txn_count, r.wallet_txn_share,
       r.wallet_balance_volatility, r.income_monthly,
       r.inflow_volatility, r.outflow_volatility, r.net_cash_margin,
       r.sm_post_freq, r.sm_engagement_score, r.sm_account_age_years,
       r.sm_activity_level.encode]) ∧
    (∀ (m : TrainedModel) (r : ScoreRequest) (res : ScoreResult),
      score (some m) r = .ok res →
      res.probability_default = m.pd (featureVector r)) := by
  refine ⟨rfl, fun r => rfl, fun m r res h => ?_⟩
  obtain ⟨_, _, hres⟩ := (score_ok_iff m r res).1 h
  subst hres
  rfl

/-- Witness for C7 at the demonstration model and request. -/
theorem request_shape_and_vector_order_witness :
    (mkResult demoModel demoRequest).probability_default =
      demoModel.pd (featureVector demoRequest) :=
  request_shape_and_vector_order.2.2 demoModel demoRequest
    (mkResult demoModel demoRequest) (by with_unfolding_all rfl)

/-- C9: a fairness group whose disparate-impact ratio is exactly 0 is
rendered by the dashboard with the same en-dash placeholder as a null
ratio, because the rendering tests the ratio for truthiness. -/
theorem dir_zero_renders_as_null (g : FairnessGroupMetrics)
    (h : g.disparate_impact_ratio = some 0) :
    dirLabel g = dirLabel { g with disparate_impact_ratio := none } ∧
    dirText g.disparate_impact_ratio = "–" := by
  constructor
  · simp [dirLabel, dirText, h]
  · rw [h]
    rfl

/-- Witness for C9 at a concrete group with a zero ratio. -/
theorem dir_zero_renders_as_null_witness :
    dirLabel demoGroupZero =
      dirLabel { demoGroupZero with disparate_impact_ratio := none } ∧
    dirText demoGroupZero.disparate_impact_ratio = "–" :=
  dir_zero_renders_as_null demoGroupZero rfl

/-- C10: along every reachable behaviour of the scoring page, every
request issued to the scoring API carries consent = true (the submit
button is disabled without consent), and unchecking the consent box
clears any displayed result. -/
theorem page_consent_gating :
    (∀ s, Reachable s → ∀ r ∈ s.issued, r.consent = true) ∧
    (∀ s : PageState, (step s (.setConsent false)).result = none) := by
  constructor
  · intro s hs
    induction hs with
    | init => intro r hr; simp [initState] at hr
    | next e hs ih =>
      intro r hr
      cases e with
      | setField f => exact ih r (by simpa [step] using hr)
      | setConsent b => exact ih r (by simpa [step] using hr)
      | apiSuccess res => exact ih r (by simpa [step] using hr)
      | apiFailure msg => exact ih r (by simpa [step] using hr)
      | submitClick =>
        rename_i s2
        by_cases hb : (s2.consent && !s2.loading) = true
        · simp only [step, if_pos hb, List.mem_append,
            List.mem_singleton] at hr
          rcases hr with hr | rfl
          · exact ih r hr
          · simp only [Bool.and_eq_true] at hb
            exact hb.1
        · simp only [step, if_neg hb] at hr
          exact ih r hr
  · intro s
    simp [step]

set_option maxRecDepth 2048 in
/-- Witness for C10: the state reached by granting consent and clicking
submit issued exactly one request and it carries consent. -/
theorem page_consent_gating_witness : demoIssuedRequest.consent = true :=
  page_consent_gating.1 demoReachedState
    (Reachable.next .submitClick
      (Reachable.next (.setConsent true) Reachable.init))
    demoIssuedRequest
    (by
      have h : demoReachedState.issued = [demoIssuedRequest] := by
        with_unfolding_all rfl
      rw [h]
      exact List.mem_singleton.2 rfl)

/-- Null disparate-impact ratio of one group holds exactly on a zero
reference approval rate. -/
theorem mkGroupMetrics_dir_none_iff (label : String)
    (g : List ScoredMember) (refRate : ℚ) :
    (mkGroupMetrics label g refRate).disparate_impact_ratio = none ↔
      refRate = 0 := by
  simp only [mkGroupMetrics]
  split <;> simp_all

/-- C3: in every audit output, a group's disparate-impact ratio is null
exactly when the approval rate of the table's reference group (Q4 for
income, the highest tier for digital adoption) is zero; a null ratio is
never replaced by a number. -/
theorem audit_dir_null_iff (pop : List ScoredMember) :
    (∀ m ∈ (audit pop).income_quartiles,
      m.disparate_impact_ratio = none ↔
        approvalRate (incomeReferenceBin pop) = 0) ∧
    (∀ m ∈ (audit pop).digital_adoption_groups,
      m.disparate_impact_ratio = none ↔
        approvalRate (digitalReferenceBin pop) = 0) := by
  constructor <;>
  · intro m hm
    simp only [audit] at hm
    rcases List.mem_map.1 hm with ⟨p, _, rfl⟩
    exact mkGroupMetrics_dir_none_iff _ _ _

set_option maxRecDepth 2048 in
/-- Witness for C3 on a four-member population whose Q4 reference
approval rate is zero. -/
theorem audit_dir_null_iff_witness :
    demoQ1Metrics.disparate_impact_ratio = none ↔
      approvalRate (incomeReferenceBin demoPop) = 0 :=
  (audit_dir_null_iff demoPop).1 demoQ1Metrics
    (by with_unfolding_all decide)

/-- Transitivity of the attribution ranking order. -/
theorem attrLe_trans : ∀ a b c : ℕ × ℚ,
    attrLe a b → attrLe b c → attrLe a c := by
  intro a b c h1 h2
  simp only [attrLe, Bool.or_eq_true, Bool.and_eq_true,
    decide_eq_true_eq] at h1 h2 ⊢
  rcases h1 with h1 | ⟨h1a, h1b⟩ <;> rcases h2 with h2 | ⟨h2a, h2b⟩
  · exact Or.inl (by linarith)
  · exact Or.inl (by rw [← h2a]; exact h1)
  · exact Or.inl (by rw [h1a]; exact h2)
  · exact Or.inr ⟨h1a.trans h2a, le_trans h1b h2b⟩

/-- Totality of the attribution ranking order. -/
theorem attrLe_total : ∀ a b : ℕ × ℚ, attrLe a b || attrLe b a := by
  intro a b
  simp only [attrLe, Bool.or_eq_true, Bool.and_eq_true,
    decide_eq_true_eq]
  rcases lt_trichotomy (|a.2|) (|b.2|) with h | h | h
  · exact Or.inr (Or.inl h)
  · rcases Nat.le_total a.1 b.1 with hn | hn
    · exact Or.inl (Or.inr ⟨h, hn⟩)
    · exact Or.inr (Or.inr ⟨h.symm, hn⟩)
  · exact Or.inl (Or.inl h)

/-- The ranking order implies descending absolute attribution. -/
theorem attrLe_abs_le (a b : ℕ × ℚ) (h : attrLe a b) :
    |b.2| ≤ |a.2| := by
  simp only [attrLe, Bool.or_eq_true, Bool.and_eq_true,
    decide_eq_true_eq] at h
  rcases h with h | ⟨h, _⟩
  · exact le_of_lt h
  · exact le_of_eq h.symm

/-- C4: every scored instance gets exactly five explanations, ordered by
descending absolute attribution with ties broken by registry index, over
pairwise-distinct registry indices, so the ordering is deterministic. -/
theorem top_explanations_selection (m : TrainedModel) (r : ScoreRequest) :
    (topExplanations m r).length = 5 ∧
    List.Pairwise (fun a b => |b.shap_value| ≤ |a.shap_value|)
      (topExplanations m r) ∧
    List.Pairwise (fun a b => attrLe a b = true)
      (topAttributions (m.attr (featureVector r))) ∧
    ((topAttributions (m.attr (featureVector r))).map Prod.fst).Nodup := by
  have hsorted : List.Pairwise (fun a b => attrLe a b = true)
      (rankedAttributions (m.attr (featureVector r))) :=
    List.sorted_mergeSort attrLe_trans attrLe_total _
  have htop : List.Pairwise (fun a b => attrLe a b = true)
      (topAttributions (m.attr (featureVector r))) :=
    List.Pairwise.sublist (List.take_sublist _ _) hsorted
  refine ⟨?_, ?_, htop, ?_⟩
  · show ((topAttributions _).map (mkExplanation r)).length = 5
    rw [List.length_map, topAttributions, List.length_take,
      rankedAttributions, List.length_mergeSort, List.enum_length,
      m.attr_length]
    rfl
  · show List.Pairwise _ ((topAttributions _).map (mkExplanation r))
    rw [List.pairwise_map]
    exact htop.imp (fun h => attrLe_abs_le _ _ h)
  · have hperm := List.mergeSort_perm
      ((m.attr (featureVector r)).enum) attrLe
    have hmap := hperm.map Prod.fst
    rw [List.enum_map_fst] at hmap
    have hnd : ((rankedAttributions
        (m.attr (featureVector r))).map Prod.fst).Nodup :=
      hmap.nodup_iff.2 (List.nodup_range _)
    exact hnd.sublist ((List.take_sublist _ _).map Prod.fst)

/-- Division distributes over a list sum. -/
theorem sum_map_div (l : List ℚ) (c : ℚ) :
    (l.map (fun x => x / c)).sum = l.sum / c := by
  induction l with
  | nil => simp
  | cons a t ih => simp [ih, add_div]

/-- C6: the relative importances obtained from the per-feature mean
absolute attributions over the validation population sum to one, and
there is one entry per registry feature. -/
theorem relative_importance_sum_one (w : List ℚ)
    (validation : List BehavioralRecord)
    (h : (globalMeanAbs w validation).sum ≠ 0) :
    (relativeImportances (globalMeanAbs w validation)).sum = 1 ∧
    (relativeImportances (globalMeanAbs w validation)).length =
      featureKeys.length := by
  constructor
  · rw [relativeImportances, sum_map_div, div_self h]
  · rw [relativeImportances, List.length_map]
    simp [globalMeanAbs]

/-- Witness for C6 on two contrasting validation records with unit
weights. -/
theorem relative_importance_sum_one_witness :
    (relativeImportances
      (globalMeanAbs demoWeights demoValidation)).sum = 1 ∧
    (relativeImportances
      (globalMeanAbs demoWeights demoValidation)).length =
      featureKeys.length :=
  relative_importance_sum_one demoWeights demoValidation
    (by with_unfolding_all decide)

/-- C8: two runs of the whole seeded pipeline on the same size and seed
that both publish an outcome publish the same validation AUC and the
same global attribution ordering. -/
theorem training_run_deterministic (n seed : ℕ)
    (o1 o2 : TrainingOutcome)
    (h1 : (runTwice n seed).1 = .ok o1)
    (h2 : (runTwice n seed).2 = .ok o2) :
    o1.auc = o2.auc ∧ o1.ordering = o2.ordering := by
  have h0 : (runTwice n seed).1 = (runTwice n seed).2 := rfl
  rw [h1, h2] at h0
  cases h0
  exact ⟨rfl, rfl⟩

set_option maxRecDepth 8192 in
/-- Witness for C8 at size 1 and seed 0. -/
theorem training_run_deterministic_witness :
    demoOutcome.auc = demoOutcome.auc ∧
    demoOutcome.ordering = demoOutcome.ordering :=
  training_run_deterministic 1 0 demoOutcome demoOutcome
    (by with_unfolding_all decide) (by with_unfolding_all decide)

end AltScore
